import Mathlib

/-!
Shallow embedding of `python/lsst/ts/observatory/model/target.py`
(class `Target`) from the `ts_observatory_model` repository.

Modelling conventions:
* Python floats are idealized as real numbers (`ℝ`); Python ints as `ℤ`;
  Python strings as `String`; Python `None` for the private `_exp_time`
  slot as `Option ℝ` (with `none` for `None`).
* Python methods that mutate `self` are embedded as functions returning
  the updated `Target` value.
* JSON serialization (`json.dumps` / `json.loads`) is modelled at the level
  of the parsed object: a Python dict with string keys and JSON values, in
  insertion order, is an association list `List (String × JValue)`;
  `json.dumps`/`json.loads` are assumed mutually inverse on such objects.
* Object identity of Python lists (needed for the aliasing behaviour of
  `list(...)` copies) is modelled by a small heap of list cells,
  see `Heap` below.
-/

/-- JSON values, as produced by `json.loads` on the payloads this class
handles: null, numbers (ints kept separate from floats, as Python does),
strings, and arrays. -/
inductive JValue : Type where
  | null : JValue
  | int (n : ℤ) : JValue
  | num (x : ℝ) : JValue
  | str (s : String) : JValue
  | arr (xs : List JValue) : JValue

/-- Python `math.radians`: degrees to radians, `x * pi / 180`. -/
noncomputable def radians (x : ℝ) : ℝ := x * Real.pi / 180

/-- Python `math.degrees`: radians to degrees, `x * 180 / pi`. -/
noncomputable def degrees (x : ℝ) : ℝ := x * 180 / Real.pi

/-- The `Target` entity: exactly the instance attributes set in
`Target.__init__`, in source order.  The private attribute `_exp_time`
(total-exposure-time override, `None` when unset) is modelled as an
`Option ℝ`. -/
structure Target : Type where
  targetid : ℤ
  fieldid : ℤ
  filter : String
  ra_rad : ℝ
  dec_rad : ℝ
  ang_rad : ℝ
  num_exp : ℤ
  exp_times : List ℝ
  _exp_time : Option ℝ
  time : ℝ
  airmass : ℝ
  sky_brightness : ℝ
  cloud : ℝ
  seeing : ℝ
  alt_rad : ℝ
  az_rad : ℝ
  rot_rad : ℝ
  telalt_rad : ℝ
  telaz_rad : ℝ
  telrot_rad : ℝ
  slewtime : ℝ
  note : String

namespace Target

/-- Constructor `Target.__init__`: all parameters explicit (Python fills omitted ones
with the listed defaults; see `init_defaults`).  `exp_times` is stored as
`list(exp_times)`, which at the value level is the sequence itself; the
fresh-copy (aliasing) aspect is modelled separately on the heap below.
Every attribute not taken from a parameter is initialized to the literal
written in the source. -/
def init (targetid fieldid : ℤ) (band_filter : String)
    (ra_rad dec_rad ang_rad : ℝ) (num_exp : ℤ) (exp_times : List ℝ) : Target :=
  { targetid := targetid
    fieldid := fieldid
    filter := band_filter
    ra_rad := ra_rad
    dec_rad := dec_rad
    ang_rad := ang_rad
    num_exp := num_exp
    exp_times := exp_times
    _exp_time := none
    time := 0
    airmass := 0
    sky_brightness := 0
    cloud := 0
    seeing := 0
    alt_rad := 0
    az_rad := 0
    rot_rad := 0
    telalt_rad := 0
    telaz_rad := 0
    telrot_rad := 0
    slewtime := 0
    note := "" }

/-- Call `Target()` with every argument left at its default
(`targetid=0, fieldid=0, band_filter="", ra_rad=0.0, dec_rad=0.0,
ang_rad=0.0, num_exp=0, exp_times=[]`). -/
def init_defaults : Target := init 0 0 "" 0 0 0 0 []

/-- Property getter `Target.alt`: `math.degrees(self.alt_rad)`. -/
noncomputable def alt (self : Target) : ℝ := degrees self.alt_rad

/-- Property setter `Target.alt`: `self.alt_rad = math.radians(alt)`. -/
noncomputable def alt_set (self : Target) (alt : ℝ) : Target :=
  { self with alt_rad := radians alt }

/-- Property getter `Target.ang`: `math.degrees(self.ang_rad)`. -/
noncomputable def ang (self : Target) : ℝ := degrees self.ang_rad

/-- Property setter `Target.ang`: `self.ang_rad = math.radians(ang)`. -/
noncomputable def ang_set (self : Target) (ang : ℝ) : Target :=
  { self with ang_rad := radians ang }

/-- Property getter `Target.az`: `math.degrees(self.az_rad)`. -/
noncomputable def az (self : Target) : ℝ := degrees self.az_rad

/-- Property setter `Target.az`: `self.az_rad = math.radians(az)`. -/
noncomputable def az_set (self : Target) (az : ℝ) : Target :=
  { self with az_rad := radians az }

/-- Property getter `Target.dec`: `math.degrees(self.dec_rad)`. -/
noncomputable def dec (self : Target) : ℝ := degrees self.dec_rad

/-- Property setter `Target.dec`: `self.dec_rad = math.radians(dec)`. -/
noncomputable def dec_set (self : Target) (dec : ℝ) : Target :=
  { self with dec_rad := radians dec }

/-- Property getter `Target.ra`: `math.degrees(self.ra_rad)`. -/
noncomputable def ra (self : Target) : ℝ := degrees self.ra_rad

/-- Property setter `Target.ra`: `self.ra_rad = math.radians(ra)`. -/
noncomputable def ra_set (self : Target) (ra : ℝ) : Target :=
  { self with ra_rad := radians ra }

/-- Property getter `Target.rot`: `math.degrees(self.rot_rad)`. -/
noncomputable def rot (self : Target) : ℝ := degrees self.rot_rad

/-- Property setter `Target.rot`: `self.rot_rad = math.radians(rot)`. -/
noncomputable def rot_set (self : Target) (rot : ℝ) : Target :=
  { self with rot_rad := radians rot }

/-- Property getter `Target.telalt`: `math.degrees(self.telalt_rad)`. -/
noncomputable def telalt (self : Target) : ℝ := degrees self.telalt_rad

/-- Property setter `Target.telalt`: `self.telalt_rad = math.radians(telalt)`. -/
noncomputable def telalt_set (self : Target) (telalt : ℝ) : Target :=
  { self with telalt_rad := radians telalt }

/-- Property getter `Target.telaz`: `math.degrees(self.telaz_rad)`. -/
noncomputable def telaz (self : Target) : ℝ := degrees self.telaz_rad

/-- Property setter `Target.telaz`: `self.telaz_rad = math.radians(telaz)`. -/
noncomputable def telaz_set (self : Target) (telaz : ℝ) : Target :=
  { self with telaz_rad := radians telaz }

/-- Property getter `Target.telrot`: `math.degrees(self.telrot_rad)`. -/
noncomputable def telrot (self : Target) : ℝ := degrees self.telrot_rad

/-- Property setter `Target.telrot`: `self.telrot_rad = math.radians(telrot)`. -/
noncomputable def telrot_set (self : Target) (telrot : ℝ) : Target :=
  { self with telrot_rad := radians telrot }

/-- Property getter `Target.exp_time`: returns `sum(self.exp_times)` when
`self._exp_time is None`, else `self._exp_time`. -/
def exp_time (self : Target) : ℝ :=
  match self._exp_time with
  | none => self.exp_times.sum
  | some v => v

/-- Property setter `Target.exp_time`: `self._exp_time = exp_time`.
The parameter is an `Option ℝ` because Python callers may assign `None`
to restore the sum-of-exp_times behaviour. -/
def exp_time_set (self : Target) (exp_time : Option ℝ) : Target :=
  { self with _exp_time := exp_time }

/-- Method `Target.copy_driver_state(target)`: assigns `alt_rad`, `az_rad`,
`rot_rad`, `telalt_rad`, `telaz_rad`, `telrot_rad`, `ang_rad` from
`target` onto `self`; nothing else is touched. -/
def copy_driver_state (self target : Target) : Target :=
  { self with
    alt_rad := target.alt_rad
    az_rad := target.az_rad
    rot_rad := target.rot_rad
    telalt_rad := target.telalt_rad
    telaz_rad := target.telaz_rad
    telrot_rad := target.telrot_rad
    ang_rad := target.ang_rad }

/-- Method `Target.get_copy()`: builds `Target()` and assigns, one by one, exactly
the attributes listed in the source — every attribute of `__init__`
except `_exp_time`, which keeps the fresh instance's `None`. -/
def get_copy (self : Target) : Target :=
  { init_defaults with
    targetid := self.targetid
    fieldid := self.fieldid
    filter := self.filter
    ra_rad := self.ra_rad
    dec_rad := self.dec_rad
    ang_rad := self.ang_rad
    num_exp := self.num_exp
    exp_times := self.exp_times
    time := self.time
    airmass := self.airmass
    sky_brightness := self.sky_brightness
    cloud := self.cloud
    seeing := self.seeing
    alt_rad := self.alt_rad
    az_rad := self.az_rad
    rot_rad := self.rot_rad
    telalt_rad := self.telalt_rad
    telaz_rad := self.telaz_rad
    telrot_rad := self.telrot_rad
    slewtime := self.slewtime
    note := self.note }

end Target

/-- The `__dict__` of a Python object: attribute names with their values,
in insertion order.  `json.dumps(vars(self))` serializes exactly this
association list, and `json.loads` recovers it. -/
abbrev Dict : Type := List (String × JValue)

/-- Membership test `name in d.keys()`. -/
def Dict.hasKey (d : Dict) (name : String) : Bool :=
  (List.any d fun kv => kv.1 = name)

/-- Python attribute read `getattr(obj, name)` on the `__dict__`:
the value stored under `name`, if any. -/
def Dict.getattr (d : Dict) (name : String) : Option JValue :=
  (List.find? (fun kv => kv.1 = name) d).map Prod.snd

/-- Python attribute write `setattr(obj, name, v)` on the `__dict__`:
updates the value in place if the key exists (keeping its position, as
CPython dicts do), otherwise appends the new attribute at the end. -/
def Dict.setattr (d : Dict) (name : String) (v : JValue) : Dict :=
  match d with
  | [] => [(name, v)]
  | kv :: rest =>
    if kv.1 = name then (name, v) :: rest else kv :: Dict.setattr rest name v

/-- JSON encoding of the `_exp_time` slot: `None ↦ null`, float ↦ number. -/
def encodeOverride : Option ℝ → JValue
  | none => JValue.null
  | some v => JValue.num v

/-- Attribute dictionary `vars(self)` for a `Target`: its attributes in `__init__` assignment
order, the only order a `Target`'s `__dict__` ever has. -/
def Target.vars (self : Target) : Dict :=
  [("targetid", JValue.int self.targetid),
   ("fieldid", JValue.int self.fieldid),
   ("filter", JValue.str self.filter),
   ("ra_rad", JValue.num self.ra_rad),
   ("dec_rad", JValue.num self.dec_rad),
   ("ang_rad", JValue.num self.ang_rad),
   ("num_exp", JValue.int self.num_exp),
   ("exp_times", JValue.arr (self.exp_times.map JValue.num)),
   ("_exp_time", encodeOverride self._exp_time),
   ("time", JValue.num self.time),
   ("airmass", JValue.num self.airmass),
   ("sky_brightness", JValue.num self.sky_brightness),
   ("cloud", JValue.num self.cloud),
   ("seeing", JValue.num self.seeing),
   ("alt_rad", JValue.num self.alt_rad),
   ("az_rad", JValue.num self.az_rad),
   ("rot_rad", JValue.num self.rot_rad),
   ("telalt_rad", JValue.num self.telalt_rad),
   ("telaz_rad", JValue.num self.telaz_rad),
   ("telrot_rad", JValue.num self.telrot_rad),
   ("slewtime", JValue.num self.slewtime),
   ("note", JValue.str self.note)]

/-- Method `Target.to_json()`: `json.dumps(vars(self))`, modelled as the parsed
object it denotes.  Total: it never raises. -/
def Target.to_json (self : Target) : Dict := self.vars

/-- The `mandatory_fields` list of `Target.from_json`, in source order. -/
def mandatory_fields : List String :=
  ["targetid", "fieldid", "filter", "ra_rad", "dec_rad", "ang_rad",
   "num_exp", "exp_times"]

/-- The `KeyError` message raised by `Target.from_json` for a missing
mandatory field `f`. -/
def missingMsg (f : String) : String :=
  "json blob passed to Target()'s json constructor " ++
    "is missing required attribute: " ++ f

/-- The first `for` loop of `Target.from_json`: walk `fields` in order and
return the first one with `f not in jsondict.keys()`, if any. -/
def checkMandatory (jsondict : Dict) : List String → Option String
  | [] => none
  | f :: fs =>
    if jsondict.hasKey f then checkMandatory jsondict fs else some f

/-- Method `Target.from_json(jsonstr)` on an object whose current `__dict__` is
`self`, with `jsonstr` already parsed into `jsondict`.  Mirrors the
source statement by statement: first the mandatory-field check loop
(raising `KeyError` with the message for the first missing field — the
error carries the `__dict__` as it stands when the raise happens), then
`setattr(self, k, jsondict[k])` for each key of `jsondict` in order. -/
def from_json (self : Dict) (jsondict : Dict) : Except (String × Dict) Dict :=
  match checkMandatory jsondict mandatory_fields with
  | some f => Except.error (missingMsg f, self)
  | none =>
    Except.ok (jsondict.foldl (fun d kv => Dict.setattr d kv.1 kv.2) self)

/-- The external wire-format record (`SALPY_scheduler.targetC` topic)
consumed by `Target.from_topic`: only the attributes the method reads. -/
structure Topic : Type where
  targetId : ℤ
  filter : String
  ra : ℝ
  decl : ℝ
  skyAngle : ℝ
  numExposures : ℤ
  exposureTimes : List ℝ

/-- Classmethod `Target.from_topic(topic)`:
`cls(topic.targetId, -1, topic.filter, math.radians(topic.ra),
math.radians(topic.decl), math.radians(topic.skyAngle),
topic.numExposures, topic.exposureTimes)`. -/
noncomputable def Target.from_topic (topic : Topic) : Target :=
  Target.init topic.targetId (-1) topic.filter (radians topic.ra)
    (radians topic.decl) (radians topic.skyAngle) topic.numExposures
    topic.exposureTimes

/-!
Heap model for Python list identity.  `self.exp_times = list(exp_times)`
and `newtarget.exp_times = list(self.exp_times)` allocate fresh list
objects; mutating the caller's (resp. the copy's) list afterwards must not
affect the stored one.  A `Heap` maps cell ids to list contents; `alloc`
hands out the next fresh id.
-/

/-- A heap of Python list objects: `next` is the first unused id, `store`
the contents of every cell. -/
structure Heap : Type where
  next : ℕ
  store : ℕ → List ℝ

/-- A list reference is live when its id was actually allocated. -/
def Heap.live (h : Heap) (r : ℕ) : Prop := r < h.next

/-- Read a list object's contents. -/
def Heap.read (h : Heap) (r : ℕ) : List ℝ := h.store r

/-- Allocate a fresh list object with the given contents
(`list(...)` always builds a new object). -/
def Heap.alloc (h : Heap) (v : List ℝ) : ℕ × Heap :=
  (h.next, ⟨h.next + 1, fun i => if i = h.next then v else h.store i⟩)

/-- In-place mutation of an existing list object (e.g. `lst.append`,
`lst[i] = x`, viewed extensionally as replacing the contents). -/
def Heap.write (h : Heap) (r : ℕ) (v : List ℝ) : Heap :=
  ⟨h.next, fun i => if i = r then v else h.store i⟩

/-- Statement `self.exp_times = list(exp_times)` of `Target.__init__`, with object
identity: the caller passes a reference `caller` to its own list; the
constructor allocates a fresh cell holding a copy of its contents and the
`Target` keeps the fresh reference.  Returns the stored reference and the
heap after construction.  All other attributes are as in `Target.init`. -/
def initExpTimesRef (h : Heap) (caller : ℕ) : ℕ × Heap :=
  h.alloc (h.read caller)

/-- Statement `newtarget.exp_times = list(self.exp_times)` of `Target.get_copy()`:
the copy gets a fresh cell duplicating the original's contents. -/
def copyExpTimesRef (h : Heap) (orig : ℕ) : ℕ × Heap :=
  h.alloc (h.read orig)

/-! Helper definitions and lemmas shared by the verification theorems. -/

/-- Folding `setattr` over a list of key/value pairs: the second `for`
loop of `Target.from_json`. -/
def applyAll (d : Dict) (e : List (String × JValue)) : Dict :=
  e.foldl (fun s kv => Dict.setattr s kv.1 kv.2) d

/-- The attribute names of a `Target`, in `__init__` assignment order. -/
def targetFieldNames : List String :=
  ["targetid", "fieldid", "filter", "ra_rad", "dec_rad", "ang_rad",
   "num_exp", "exp_times", "_exp_time", "time", "airmass", "sky_brightness",
   "cloud", "seeing", "alt_rad", "az_rad", "rot_rad", "telalt_rad",
   "telaz_rad", "telrot_rad", "slewtime", "note"]

/-- Round-tripping a degree value through the radian store is exact. -/
theorem degrees_radians (x : ℝ) : degrees (radians x) = x := by
  unfold degrees radians
  field_simp

theorem setattr_cons_eq (k : String) (v v' : JValue) (d : Dict) :
    Dict.setattr ((k, v) :: d) k v' = (k, v') :: d := by
  simp [Dict.setattr]

theorem setattr_cons_ne (k k' : String) (hk : k ≠ k') (v v' : JValue) (d : Dict) :
    Dict.setattr ((k, v) :: d) k' v' = (k, v) :: Dict.setattr d k' v' := by
  simp [Dict.setattr, hk]

theorem getattr_setattr_self (d : Dict) (k : String) (v : JValue) :
    (d.setattr k v).getattr k = some v := by
  induction d with
  | nil => simp [Dict.setattr, Dict.getattr]
  | cons kv rest ih =>
    by_cases h : kv.1 = k
    · simp [Dict.setattr, h, Dict.getattr]
    · simp only [Dict.setattr]
      rw [if_neg h]
      simpa [Dict.getattr, List.find?_cons, h] using ih

theorem getattr_setattr_ne (d : Dict) (k k' : String) (h : k ≠ k') (v : JValue) :
    (d.setattr k v).getattr k' = d.getattr k' := by
  induction d with
  | nil => simp [Dict.setattr, Dict.getattr, List.find?, h]
  | cons kv rest ih =>
    by_cases hk : kv.1 = k
    · subst hk
      rw [show Dict.setattr (kv :: rest) kv.1 v = (kv.1, v) :: rest from
        (by cases kv; exact setattr_cons_eq _ _ _ _)]
      simp [Dict.getattr, List.find?, h]
    · rw [show Dict.setattr (kv :: rest) k v = kv :: Dict.setattr rest k v from
        (by cases kv; exact setattr_cons_ne _ _ hk _ _ _)]
      by_cases hk' : kv.1 = k'
      · simp [Dict.getattr, List.find?, hk']
      · simpa [Dict.getattr, List.find?, hk'] using ih

theorem applyAll_cons_notin (k : String) (v : JValue) (e : List (String × JValue))
    (hk : ∀ kv ∈ e, kv.1 ≠ k) (d : Dict) :
    applyAll ((k, v) :: d) e = (k, v) :: applyAll d e := by
  induction e generalizing d with
  | nil => rfl
  | cons kv rest ih =>
    have h1 : kv.1 ≠ k := hk kv (by simp)
    have h2 : ∀ kv' ∈ rest, kv'.1 ≠ k := fun kv' h => hk kv' (by simp [h])
    simp only [applyAll, List.foldl_cons] at *
    rw [setattr_cons_ne k kv.1 (fun h => h1 h.symm) v kv.2 d]
    exact ih h2 _

theorem applyAll_self (e d : Dict) (hsk : d.map Prod.fst = e.map Prod.fst)
    (hnd : (e.map Prod.fst).Nodup) : applyAll d e = e := by
  induction e generalizing d with
  | nil => cases d <;> simp_all [applyAll]
  | cons kv rest ih =>
    match d with
    | [] => simp at hsk
    | (k0, v0) :: d' =>
      simp only [List.map_cons, List.cons.injEq] at hsk
      obtain ⟨hk0, hsk'⟩ := hsk
      simp only [List.map_cons, List.nodup_cons] at hnd
      obtain ⟨hknotin, hnd'⟩ := hnd
      simp only [applyAll, List.foldl_cons]
      rw [hk0]
      rw [show Dict.setattr ((kv.1, v0) :: d') kv.1 kv.2 = (kv.1, kv.2) :: d' from
        setattr_cons_eq kv.1 v0 kv.2 d']
      have hrest : ∀ kv' ∈ rest, kv'.1 ≠ kv.1 := by
        intro kv' h heq
        exact hknotin (heq ▸ List.mem_map_of_mem Prod.fst h)
      calc applyAll ((kv.1, kv.2) :: d') rest
          = (kv.1, kv.2) :: applyAll d' rest := applyAll_cons_notin _ _ _ hrest _
        _ = (kv.1, kv.2) :: rest := by rw [ih d' hsk' hnd']

theorem getattr_applyAll_notin (e : List (String × JValue)) (k : String) :
    ∀ (d : Dict), (∀ kv ∈ e, kv.1 ≠ k) → (applyAll d e).getattr k = d.getattr k := by
  induction e with
  | nil => intro d _; rfl
  | cons kv rest ih =>
    intro d hk
    have h1 : kv.1 ≠ k := hk kv (by simp)
    have h2 : ∀ kv' ∈ rest, kv'.1 ≠ k := fun kv' h => hk kv' (by simp [h])
    show (applyAll (Dict.setattr d kv.1 kv.2) rest).getattr k = d.getattr k
    rw [ih (Dict.setattr d kv.1 kv.2) h2]
    exact getattr_setattr_ne d kv.1 k h1 kv.2

theorem getattr_applyAll_mem (e : List (String × JValue)) :
    ∀ (d : Dict), (e.map Prod.fst).Nodup →
      ∀ kv ∈ e, (applyAll d e).getattr kv.1 = some kv.2 := by
  induction e with
  | nil => intro d _ kv h; cases h
  | cons kv0 rest ih =>
    intro d hnd kv hmem
    simp only [List.map_cons, List.nodup_cons] at hnd
    obtain ⟨hnotin, hnd'⟩ := hnd
    rcases List.mem_cons.mp hmem with heq | hmem'
    · subst heq
      have hrest : ∀ kv' ∈ rest, kv'.1 ≠ kv.1 := by
        intro kv' h heq
        exact hnotin (heq ▸ List.mem_map_of_mem Prod.fst h)
      show (applyAll (Dict.setattr d kv.1 kv.2) rest).getattr kv.1 = some kv.2
      rw [getattr_applyAll_notin rest kv.1 (Dict.setattr d kv.1 kv.2) hrest]
      exact getattr_setattr_self d kv.1 kv.2
    · exact ih (Dict.setattr d kv0.1 kv0.2) hnd' kv hmem'

theorem checkMandatory_eq_none (j : Dict) (fs : List String) :
    checkMandatory j fs = none ↔ ∀ f ∈ fs, j.hasKey f = true := by
  induction fs with
  | nil => simp [checkMandatory]
  | cons f fs ih =>
    by_cases h : j.hasKey f
    · simp [checkMandatory, h, ih]
    · simp [checkMandatory, h]

theorem checkMandatory_eq_some (j : Dict) (fs : List String) (f : String)
    (h : checkMandatory j fs = some f) :
    ∃ pre post, fs = pre ++ f :: post ∧ (∀ g ∈ pre, j.hasKey g = true) ∧
      j.hasKey f = false := by
  induction fs with
  | nil => simp [checkMandatory] at h
  | cons g gs ih =>
    by_cases hg : j.hasKey g
    · rw [checkMandatory, if_pos hg] at h
      obtain ⟨pre, post, h1, h2, h3⟩ := ih h
      refine ⟨g :: pre, post, by simp [h1], ?_, h3⟩
      intro g' hg'
      rcases List.mem_cons.mp hg' with rfl | hmem
      · exact hg
      · exact h2 g' hmem
    · rw [checkMandatory, if_neg hg] at h
      injection h with h
      subst h
      exact ⟨[], gs, rfl, by simp, by simpa using hg⟩

theorem vars_injective (t u : Target) (h : t.vars = u.vars) : t = u := by
  cases t
  cases u
  simp only [Target.vars, List.cons.injEq, Prod.mk.injEq, JValue.int.injEq,
    JValue.num.injEq, JValue.str.injEq, JValue.arr.injEq, true_and,
    and_true] at h
  obtain ⟨h1, h2, h3, h4, h5, h6, h7, h8, h9, h10, h11, h12, h13, h14, h15,
    h16, h17, h18, h19, h20, h21, h22⟩ := h
  have hets := List.map_injective_iff.mpr
    (fun a b hab => by injection hab) h8
  have hov : ∀ (o o' : Option ℝ), encodeOverride o = encodeOverride o' → o = o' := by
    intro o o' ho
    cases o <;> cases o' <;> simp_all [encodeOverride]
  have h9' := hov _ _ h9
  simp_all

/-- A sample target used to instantiate theorems with hypotheses. -/
noncomputable def tEx : Target := Target.init 7 3 "g" 1 2 3 2 [15, 15]

/-- A sample target whose total-exposure-time override is set
(`t.exp_time = 5` was assigned). -/
noncomputable def tOverride : Target :=
  Target.exp_time_set (Target.init 1 2 "g" 0 0 0 1 [15]) (some 5)

/-- A sample heap with one live list object (id 0, contents [2, 3]). -/
noncomputable def hEx : Heap := ⟨1, fun _ => [2, 3]⟩

/-- C2: reading `exp_time` returns the override whenever one has been set
through the setter (so an override of `0` really yields `0`), otherwise
the sum of `exp_times` (`0.0` for the empty sequence); assigning `None`
restores the sum-of-exp_times behaviour. -/
theorem exp_time_spec (t : Target) (v : ℝ) (hunset : t._exp_time = none) :
    t.exp_time = t.exp_times.sum
  ∧ (t.exp_times = [] → t.exp_time = 0)
  ∧ (t.exp_time_set (some v)).exp_time = v
  ∧ (t.exp_time_set (some 0)).exp_time = 0
  ∧ ((t.exp_time_set (some v)).exp_time_set none).exp_time = t.exp_times.sum := by
  refine ⟨?_, ?_, rfl, rfl, rfl⟩
  · rw [Target.exp_time, hunset]
  · intro he
    rw [Target.exp_time, hunset, he]
    simp

theorem exp_time_spec_witness :
    Target.init_defaults._exp_time = none
  ∧ (Target.init_defaults.exp_time = Target.init_defaults.exp_times.sum
     ∧ (Target.init_defaults.exp_times = [] → Target.init_defaults.exp_time = 0)
     ∧ (Target.init_defaults.exp_time_set (some 5)).exp_time = 5
     ∧ (Target.init_defaults.exp_time_set (some 0)).exp_time = 0
     ∧ ((Target.init_defaults.exp_time_set (some 5)).exp_time_set none).exp_time
         = Target.init_defaults.exp_times.sum)
  ∧ Target.init_defaults.exp_time = 0 :=
  ⟨rfl, exp_time_spec Target.init_defaults 5 rfl,
   (exp_time_spec Target.init_defaults 5 rfl).2.1 rfl⟩

/-- C5: `copy_driver_state` sets exactly `alt_rad`, `az_rad`, `rot_rad`,
`telalt_rad`, `telaz_rad`, `telrot_rad`, `ang_rad` on the destination to
the source's values and leaves every other destination field unchanged.
The source argument is only read (the embedding of the method does not
even produce a modified source), so the source is unmodified. -/
theorem copy_driver_state_spec (b a : Target) :
    (b.copy_driver_state a).alt_rad = a.alt_rad
  ∧ (b.copy_driver_state a).az_rad = a.az_rad
  ∧ (b.copy_driver_state a).rot_rad = a.rot_rad
  ∧ (b.copy_driver_state a).telalt_rad = a.telalt_rad
  ∧ (b.copy_driver_state a).telaz_rad = a.telaz_rad
  ∧ (b.copy_driver_state a).telrot_rad = a.telrot_rad
  ∧ (b.copy_driver_state a).ang_rad = a.ang_rad
  ∧ (b.copy_driver_state a).targetid = b.targetid
  ∧ (b.copy_driver_state a).fieldid = b.fieldid
  ∧ (b.copy_driver_state a).filter = b.filter
  ∧ (b.copy_driver_state a).ra_rad = b.ra_rad
  ∧ (b.copy_driver_state a).dec_rad = b.dec_rad
  ∧ (b.copy_driver_state a).num_exp = b.num_exp
  ∧ (b.copy_driver_state a).exp_times = b.exp_times
  ∧ (b.copy_driver_state a)._exp_time = b._exp_time
  ∧ (b.copy_driver_state a).time = b.time
  ∧ (b.copy_driver_state a).airmass = b.airmass
  ∧ (b.copy_driver_state a).sky_brightness = b.sky_brightness
  ∧ (b.copy_driver_state a).cloud = b.cloud
  ∧ (b.copy_driver_state a).seeing = b.seeing
  ∧ (b.copy_driver_state a).slewtime = b.slewtime
  ∧ (b.copy_driver_state a).note = b.note :=
  ⟨rfl, rfl, rfl, rfl, rfl, rfl, rfl, rfl, rfl, rfl, rfl, rfl, rfl, rfl,
   rfl, rfl, rfl, rfl, rfl, rfl, rfl, rfl⟩

/-- C6: for each of the nine angular quantities, the degree setter stores
`radians(x)` in the corresponding radian field and changes nothing else
(the structure-update equation pins every field), the degree getter reads
`degrees` of the stored radian field, and set-then-get returns the
written value exactly. -/
theorem degree_accessors_spec (t : Target) (x : ℝ) :
    (t.ra_set x = { t with ra_rad := radians x }
      ∧ (t.ra_set x).ra = x ∧ t.ra = degrees t.ra_rad)
  ∧ (t.dec_set x = { t with dec_rad := radians x }
      ∧ (t.dec_set x).dec = x ∧ t.dec = degrees t.dec_rad)
  ∧ (t.ang_set x = { t with ang_rad := radians x }
      ∧ (t.ang_set x).ang = x ∧ t.ang = degrees t.ang_rad)
  ∧ (t.alt_set x = { t with alt_rad := radians x }
      ∧ (t.alt_set x).alt = x ∧ t.alt = degrees t.alt_rad)
  ∧ (t.az_set x = { t with az_rad := radians x }
      ∧ (t.az_set x).az = x ∧ t.az = degrees t.az_rad)
  ∧ (t.rot_set x = { t with rot_rad := radians x }
      ∧ (t.rot_set x).rot = x ∧ t.rot = degrees t.rot_rad)
  ∧ (t.telalt_set x = { t with telalt_rad := radians x }
      ∧ (t.telalt_set x).telalt = x ∧ t.telalt = degrees t.telalt_rad)
  ∧ (t.telaz_set x = { t with telaz_rad := radians x }
      ∧ (t.telaz_set x).telaz = x ∧ t.telaz = degrees t.telaz_rad)
  ∧ (t.telrot_set x = { t with telrot_rad := radians x }
      ∧ (t.telrot_set x).telrot = x ∧ t.telrot = degrees t.telrot_rad) :=
  ⟨⟨rfl, degrees_radians x, rfl⟩, ⟨rfl, degrees_radians x, rfl⟩,
   ⟨rfl, degrees_radians x, rfl⟩, ⟨rfl, degrees_radians x, rfl⟩,
   ⟨rfl, degrees_radians x, rfl⟩, ⟨rfl, degrees_radians x, rfl⟩,
   ⟨rfl, degrees_radians x, rfl⟩, ⟨rfl, degrees_radians x, rfl⟩,
   ⟨rfl, degrees_radians x, rfl⟩⟩

/-- A sample external wire-format record with `ra=45.0`, `decl=-30.0`,
`skyAngle=90.0`. -/
noncomputable def topicEx : Topic :=
  { targetId := 5, filter := "r", ra := 45, decl := -30, skyAngle := 90,
    numExposures := 2, exposureTimes := [15, 15] }

/-- C7: `from_topic` maps `targetId` to `targetid`, sets the sentinel
`fieldid = -1`, copies the filter, converts `ra`, `decl`, `skyAngle` from
degrees to radians, and copies `numExposures` and `exposureTimes`
element-for-element; on the sample record the three conversions give
`pi/4`, `-pi/6` and `pi/2` exactly. -/
theorem from_topic_spec (topic : Topic) :
    (Target.from_topic topic).targetid = topic.targetId
  ∧ (Target.from_topic topic).fieldid = -1
  ∧ (Target.from_topic topic).filter = topic.filter
  ∧ (Target.from_topic topic).ra_rad = radians topic.ra
  ∧ (Target.from_topic topic).dec_rad = radians topic.decl
  ∧ (Target.from_topic topic).ang_rad = radians topic.skyAngle
  ∧ (Target.from_topic topic).num_exp = topic.numExposures
  ∧ (Target.from_topic topic).exp_times = topic.exposureTimes
  ∧ (Target.from_topic topicEx).ra_rad = Real.pi / 4
  ∧ (Target.from_topic topicEx).dec_rad = -(Real.pi / 6)
  ∧ (Target.from_topic topicEx).ang_rad = Real.pi / 2 := by
  refine ⟨rfl, rfl, rfl, rfl, rfl, rfl, rfl, rfl, ?_, ?_, ?_⟩
  · show radians 45 = Real.pi / 4
    rw [radians]; ring
  · show radians (-30) = -(Real.pi / 6)
    rw [radians]; ring
  · show radians 90 = Real.pi / 2
    rw [radians]; ring

/-- C10: every field of a `from_topic` target that is outside the wire
record's scope keeps its constructor default: conditions and computed
pointing results are `0.0`, `slewtime` is `0.0`, `note` is empty, and the
exposure-time override is unset, so `exp_time` is the sum of the record's
exposure times. -/
theorem from_topic_defaults_spec (topic : Topic) :
    (Target.from_topic topic).time = 0
  ∧ (Target.from_topic topic).airmass = 0
  ∧ (Target.from_topic topic).sky_brightness = 0
  ∧ (Target.from_topic topic).cloud = 0
  ∧ (Target.from_topic topic).seeing = 0
  ∧ (Target.from_topic topic).alt_rad = 0
  ∧ (Target.from_topic topic).az_rad = 0
  ∧ (Target.from_topic topic).rot_rad = 0
  ∧ (Target.from_topic topic).telalt_rad = 0
  ∧ (Target.from_topic topic).telaz_rad = 0
  ∧ (Target.from_topic topic).telrot_rad = 0
  ∧ (Target.from_topic topic).slewtime = 0
  ∧ (Target.from_topic topic).note = ""
  ∧ (Target.from_topic topic)._exp_time = none
  ∧ (Target.from_topic topic).exp_time = topic.exposureTimes.sum :=
  ⟨rfl, rfl, rfl, rfl, rfl, rfl, rfl, rfl, rfl, rfl, rfl, rfl, rfl, rfl, rfl⟩

/-- C1 counterexample: `get_copy` does not copy the private `_exp_time`
override.  On a target whose override is set to 5 (with `exp_times =
[15]`), the copy's override state differs from the original's, and the
observable `exp_time` differs too (15 for the copy vs 5 for the
original), so the copy is not equal to the original in every field. -/
theorem get_copy_drops_override_counterexample :
    tOverride.get_copy._exp_time ≠ tOverride._exp_time
  ∧ tOverride.get_copy.exp_time ≠ tOverride.exp_time := by
  constructor
  · show (none : Option ℝ) ≠ some 5
    simp
  · show ((15 : ℝ) + 0) ≠ 5
    norm_num

/-- C1 (amended): `get_copy` returns a new `Target` equal to the original
in every field except the exposure-time override, which is unset (`None`)
in the copy; and the copy's `exp_times` sequence is a fresh duplicate, so
mutating the copy's list leaves the original's list unchanged (heap
part: the freshly allocated cell is distinct from, and initially equal in
contents to, the original's cell, and writing through it does not change
the original cell). -/
theorem get_copy_spec (t : Target) (h : Heap) (r : ℕ) (hlive : h.live r) :
    t.get_copy = { t with _exp_time := none }
  ∧ (copyExpTimesRef h r).1 ≠ r
  ∧ Heap.read (copyExpTimesRef h r).2 (copyExpTimesRef h r).1 = h.read r
  ∧ ∀ xs, Heap.read (Heap.write (copyExpTimesRef h r).2 (copyExpTimesRef h r).1 xs) r
      = h.read r := by
  have hne : h.next ≠ r := Nat.ne_of_gt hlive
  refine ⟨rfl, ?_, ?_, ?_⟩
  · exact hne
  · simp [copyExpTimesRef, Heap.alloc, Heap.read]
  · intro xs
    have hr : ¬ (r = h.next) := fun hh => hne hh.symm
    simp [copyExpTimesRef, Heap.alloc, Heap.read, Heap.write, hr]

theorem get_copy_spec_witness :
    Heap.live hEx 0
  ∧ (tOverride.get_copy = { tOverride with _exp_time := none }
     ∧ (copyExpTimesRef hEx 0).1 ≠ 0
     ∧ Heap.read (copyExpTimesRef hEx 0).2 (copyExpTimesRef hEx 0).1 = hEx.read 0
     ∧ ∀ xs, Heap.read (Heap.write (copyExpTimesRef hEx 0).2 (copyExpTimesRef hEx 0).1 xs) 0
         = hEx.read 0) :=
  ⟨Nat.zero_lt_one, get_copy_spec tOverride hEx 0 Nat.zero_lt_one⟩

/-- C8: `Target.__init__` stores `exp_times` as an independent copy of the
caller's sequence — a freshly allocated cell, initially equal in contents,
which later in-place mutation of the caller's list does not touch — and
initializes every field not taken from a parameter to its zero/empty
default (`_exp_time = None`, conditions and computed results `0.0`,
`note` empty); a call with every argument omitted additionally leaves all
parameter fields at their zero/empty defaults. -/
theorem init_spec (targetid fieldid : ℤ) (bf : String) (ra_r dec_r ang_r : ℝ)
    (ne : ℤ) (ets : List ℝ) (h : Heap) (caller : ℕ) (hlive : h.live caller) :
    ((Target.init targetid fieldid bf ra_r dec_r ang_r ne ets)._exp_time = none
     ∧ (Target.init targetid fieldid bf ra_r dec_r ang_r ne ets).time = 0
     ∧ (Target.init targetid fieldid bf ra_r dec_r ang_r ne ets).airmass = 0
     ∧ (Target.init targetid fieldid bf ra_r dec_r ang_r ne ets).sky_brightness = 0
     ∧ (Target.init targetid fieldid bf ra_r dec_r ang_r ne ets).cloud = 0
     ∧ (Target.init targetid fieldid bf ra_r dec_r ang_r ne ets).seeing = 0
     ∧ (Target.init targetid fieldid bf ra_r dec_r ang_r ne ets).alt_rad = 0
     ∧ (Target.init targetid fieldid bf ra_r dec_r ang_r ne ets).az_rad = 0
     ∧ (Target.init targetid fieldid bf ra_r dec_r ang_r ne ets).rot_rad = 0
     ∧ (Target.init targetid fieldid bf ra_r dec_r ang_r ne ets).telalt_rad = 0
     ∧ (Target.init targetid fieldid bf ra_r dec_r ang_r ne ets).telaz_rad = 0
     ∧ (Target.init targetid fieldid bf ra_r dec_r ang_r ne ets).telrot_rad = 0
     ∧ (Target.init targetid fieldid bf ra_r dec_r ang_r ne ets).slewtime = 0
     ∧ (Target.init targetid fieldid bf ra_r dec_r ang_r ne ets).note = "")
  ∧ (Target.init_defaults.targetid = 0
     ∧ Target.init_defaults.fieldid = 0
     ∧ Target.init_defaults.filter = ""
     ∧ Target.init_defaults.ra_rad = 0
     ∧ Target.init_defaults.dec_rad = 0
     ∧ Target.init_defaults.ang_rad = 0
     ∧ Target.init_defaults.num_exp = 0
     ∧ Target.init_defaults.exp_times = [])
  ∧ ((initExpTimesRef h caller).1 ≠ caller
     ∧ Heap.read (initExpTimesRef h caller).2 (initExpTimesRef h caller).1 = h.read caller
     ∧ ∀ xs, Heap.read (Heap.write (initExpTimesRef h caller).2 caller xs)
         (initExpTimesRef h caller).1 = h.read caller) := by
  have hne : h.next ≠ caller := Nat.ne_of_gt hlive
  refine ⟨⟨rfl, rfl, rfl, rfl, rfl, rfl, rfl, rfl, rfl, rfl, rfl, rfl, rfl, rfl⟩,
    ⟨rfl, rfl, rfl, rfl, rfl, rfl, rfl, rfl⟩, hne, ?_, ?_⟩
  · simp [initExpTimesRef, Heap.alloc, Heap.read]
  · intro xs
    simp [initExpTimesRef, Heap.alloc, Heap.read, Heap.write, hne]

theorem init_spec_witness :
    Heap.live hEx 0
  ∧ (((Target.init 7 3 "g" 1 2 3 2 [15, 15])._exp_time = none
     ∧ (Target.init 7 3 "g" 1 2 3 2 [15, 15]).time = 0
     ∧ (Target.init 7 3 "g" 1 2 3 2 [15, 15]).airmass = 0
     ∧ (Target.init 7 3 "g" 1 2 3 2 [15, 15]).sky_brightness = 0
     ∧ (Target.init 7 3 "g" 1 2 3 2 [15, 15]).cloud = 0
     ∧ (Target.init 7 3 "g" 1 2 3 2 [15, 15]).seeing = 0
     ∧ (Target.init 7 3 "g" 1 2 3 2 [15, 15]).alt_rad = 0
     ∧ (Target.init 7 3 "g" 1 2 3 2 [15, 15]).az_rad = 0
     ∧ (Target.init 7 3 "g" 1 2 3 2 [15, 15]).rot_rad = 0
     ∧ (Target.init 7 3 "g" 1 2 3 2 [15, 15]).telalt_rad = 0
     ∧ (Target.init 7 3 "g" 1 2 3 2 [15, 15]).telaz_rad = 0
     ∧ (Target.init 7 3 "g" 1 2 3 2 [15, 15]).telrot_rad = 0
     ∧ (Target.init 7 3 "g" 1 2 3 2 [15, 15]).slewtime = 0
     ∧ (Target.init 7 3 "g" 1 2 3 2 [15, 15]).note = "")
  ∧ (Target.init_defaults.targetid = 0
     ∧ Target.init_defaults.fieldid = 0
     ∧ Target.init_defaults.filter = ""
     ∧ Target.init_defaults.ra_rad = 0
     ∧ Target.init_defaults.dec_rad = 0
     ∧ Target.init_defaults.ang_rad = 0
     ∧ Target.init_defaults.num_exp = 0
     ∧ Target.init_defaults.exp_times = [])
  ∧ ((initExpTimesRef hEx 0).1 ≠ 0
     ∧ Heap.read (initExpTimesRef hEx 0).2 (initExpTimesRef hEx 0).1 = hEx.read 0
     ∧ ∀ xs, Heap.read (Heap.write (initExpTimesRef hEx 0).2 0 xs)
         (initExpTimesRef hEx 0).1 = hEx.read 0)) :=
  ⟨Nat.zero_lt_one, init_spec 7 3 "g" 1 2 3 2 [15, 15] hEx 0 Nat.zero_lt_one⟩

/-- The `__dict__` of a freshly default-constructed `Target`. -/
noncomputable def self0 : Dict := Target.init_defaults.vars

/-- A JSON payload carrying every mandatory key except `"ra_rad"`. -/
noncomputable def payloadMissingRa : Dict :=
  [("targetid", JValue.int 1), ("fieldid", JValue.int 2),
   ("filter", JValue.str "g"), ("dec_rad", JValue.num 0),
   ("ang_rad", JValue.num 0), ("num_exp", JValue.int 1),
   ("exp_times", JValue.arr [JValue.num 15])]

/-- A JSON payload carrying every mandatory key plus a key beyond the
mandatory set. -/
noncomputable def payloadFull : Dict :=
  [("targetid", JValue.int 1), ("fieldid", JValue.int 2),
   ("filter", JValue.str "g"), ("ra_rad", JValue.num 1),
   ("dec_rad", JValue.num 0), ("ang_rad", JValue.num 0),
   ("num_exp", JValue.int 1), ("exp_times", JValue.arr [JValue.num 15]),
   ("custom", JValue.int 3)]

/-- C3: `from_json` raises the missing-field `KeyError` naming the first
absent key of the ordered mandatory set whenever one is absent (in
particular, error message names `"ra_rad"` when only `"ra_rad"` is
missing), and when every mandatory key is present it succeeds and assigns
every key present in the payload — including keys beyond the mandatory
set — onto the instance. -/
theorem from_json_spec (self jsondict : Dict) :
    ((∃ f ∈ mandatory_fields, jsondict.hasKey f = false) →
      ∃ pre post f, mandatory_fields = pre ++ f :: post
        ∧ (∀ g ∈ pre, jsondict.hasKey g = true)
        ∧ jsondict.hasKey f = false
        ∧ from_json self jsondict = Except.error (missingMsg f, self))
  ∧ from_json self payloadMissingRa = Except.error (missingMsg "ra_rad", self)
  ∧ ((jsondict.map Prod.fst).Nodup →
      (∀ f ∈ mandatory_fields, jsondict.hasKey f = true) →
      ∃ r, from_json self jsondict = Except.ok r
        ∧ ∀ kv ∈ jsondict, r.getattr kv.1 = some kv.2) := by
  refine ⟨?_, ?_, ?_⟩
  · intro hex
    obtain ⟨f0, hf0mem, hf0⟩ := hex
    have hne : checkMandatory jsondict mandatory_fields ≠ none := by
      rw [Ne, checkMandatory_eq_none]
      intro hall
      rw [hall f0 hf0mem] at hf0
      cases hf0
    obtain ⟨f, hf⟩ := Option.ne_none_iff_exists'.mp hne
    obtain ⟨pre, post, hsplit, hpre, hfalse⟩ := checkMandatory_eq_some _ _ _ hf
    refine ⟨pre, post, f, hsplit, hpre, hfalse, ?_⟩
    simp only [from_json, hf]
  · have hra : checkMandatory payloadMissingRa mandatory_fields = some "ra_rad" := rfl
    simp only [from_json, hra]
  · intro hnd hall
    have hnone : checkMandatory jsondict mandatory_fields = none :=
      (checkMandatory_eq_none _ _).mpr hall
    refine ⟨applyAll self jsondict, ?_, ?_⟩
    · simp only [from_json, hnone]
      rfl
    · intro kv hkv
      exact getattr_applyAll_mem jsondict self hnd kv hkv

theorem from_json_spec_witness :
    (∃ f ∈ mandatory_fields, payloadMissingRa.hasKey f = false)
  ∧ (payloadFull.map Prod.fst).Nodup
  ∧ (∀ f ∈ mandatory_fields, payloadFull.hasKey f = true)
  ∧ (∃ pre post f, mandatory_fields = pre ++ f :: post
      ∧ (∀ g ∈ pre, payloadMissingRa.hasKey g = true)
      ∧ payloadMissingRa.hasKey f = false
      ∧ from_json self0 payloadMissingRa
          = Except.error (missingMsg f, self0))
  ∧ (∃ r, from_json self0 payloadFull = Except.ok r
      ∧ ∀ kv ∈ payloadFull, r.getattr kv.1 = some kv.2) :=
  ⟨by decide, by decide, by decide,
   (from_json_spec self0 payloadMissingRa).1 (by decide),
   (from_json_spec self0 payloadFull).2.2 (by decide) (by decide)⟩

/-- C4: serializing a `Target` with `to_json` and deserializing into a
freshly default-constructed instance reproduces every field, including
the private `_exp_time` override state (`Except.ok t.vars` pins the whole
`__dict__`, and `vars` is injective, third conjunct); `to_json` is a
total function and its output's keys are exactly the entity's field
names. -/
theorem to_json_from_json_roundtrip (t : Target) :
    from_json Target.init_defaults.vars t.to_json = Except.ok t.vars
  ∧ t.to_json.map Prod.fst = targetFieldNames
  ∧ ∀ u : Target, u.vars = t.vars → u = t := by
  refine ⟨?_, rfl, fun u hu => vars_injective u t hu⟩
  have h1 : checkMandatory t.vars mandatory_fields = none := rfl
  show from_json Target.init_defaults.vars t.vars = Except.ok t.vars
  simp only [from_json, h1]
  have hnd : (t.vars.map Prod.fst).Nodup := by
    rw [show t.vars.map Prod.fst = targetFieldNames from rfl]
    decide
  have h2 : applyAll Target.init_defaults.vars t.vars = t.vars :=
    applyAll_self t.vars Target.init_defaults.vars rfl hnd
  exact congrArg Except.ok h2

theorem to_json_from_json_roundtrip_witness :
    (from_json Target.init_defaults.vars tOverride.to_json
        = Except.ok tOverride.vars
     ∧ tOverride.to_json.map Prod.fst = targetFieldNames
     ∧ ∀ u : Target, u.vars = tOverride.vars → u = tOverride)
  ∧ tOverride = tOverride :=
  ⟨to_json_from_json_roundtrip tOverride,
   (to_json_from_json_roundtrip tOverride).2.2 tOverride rfl⟩

/-- C9: `from_json` checks the whole mandatory-key set before assigning
anything, so whenever it raises the missing-field error the instance's
state (the `__dict__` carried by the raised error, i.e. `self` at raise
time) is exactly the state before the call. -/
theorem from_json_error_state_unchanged (self jsondict : Dict) (e : String)
    (d : Dict) (h : from_json self jsondict = Except.error (e, d)) :
    d = self := by
  cases hc : checkMandatory jsondict mandatory_fields with
  | none =>
    simp only [from_json, hc] at h
    cases h
  | some f =>
    simp only [from_json, hc, Except.error.injEq, Prod.mk.injEq] at h
    exact h.2.symm

theorem from_json_error_state_unchanged_witness :
    from_json self0 payloadMissingRa = Except.error (missingMsg "ra_rad", self0)
  ∧ self0 = self0 :=
  ⟨rfl, from_json_error_state_unchanged self0 payloadMissingRa
    (missingMsg "ra_rad") self0 rfl⟩
